import Mathlib

/-!
Shallow embedding of the weaver-vercel trading-strategy core
(src/config.py, src/state.py, src/strategy.py, src/analyzer.py).

Python floats are modelled as rationals (ℚ); timestamps (datetime) as
natural numbers (epoch value); the three string-keyed tier dictionaries
(keys "h1"/"h2"/"h3") as a three-field record `TierMap`; the free-form
`hedges`/`prev_hedges` dictionaries as association lists.  Python's
in-place mutation plus a possible raised exception is modelled by
returning the mutated state together with a Boolean flag that records
whether the exception propagated (the caller's state object keeps every
mutation made before the raise, exactly as in CPython).
-/

namespace Weaver

/-! config.py, class Config: static numeric parameters. -/
namespace Config

def SPOT_COMMISSION : ℚ := 1/1000
def FUTURES_COMMISSION : ℚ := 4/10000
def FUNDING_RATE : ℚ := 1/10000
def HOURS_PER_FUNDING : ℚ := 8
def MAX_LEVERAGE : ℚ := 10
def UPPER_BOUND_MULT : ℚ := 106/100
def LOWER_BOUND_MULT : ℚ := 94/100
def BUFFER_MULT : ℚ := 92/100
def SPOT_ALLOCATION : ℚ := 75/100
def HEDGE_ALLOCATION : ℚ := 25/100

end Config

/-- config.py, enum StrategyState. -/
inductive StrategyState where
  | INITIALIZING | SCANNING | WAITING | ENTERING_POSITION | IN_POSITION
  | EXITING_POSITION | HEDGING | REBALANCING | STOPPED | ERROR
deriving DecidableEq, Repr

/-- The `.value` string tag of each StrategyState member. -/
def StrategyState.value : StrategyState → String
  | .INITIALIZING => "initializing"
  | .SCANNING => "scanning"
  | .WAITING => "waiting"
  | .ENTERING_POSITION => "entering_position"
  | .IN_POSITION => "in_position"
  | .EXITING_POSITION => "exiting_position"
  | .HEDGING => "hedging"
  | .REBALANCING => "rebalancing"
  | .STOPPED => "stopped"
  | .ERROR => "error"

/-- `StrategyState(tag)`: enum lookup by value, failing on unknown tags. -/
def strategyStateOfValue : String → Option StrategyState
  | "initializing" => some .INITIALIZING
  | "scanning" => some .SCANNING
  | "waiting" => some .WAITING
  | "entering_position" => some .ENTERING_POSITION
  | "in_position" => some .IN_POSITION
  | "exiting_position" => some .EXITING_POSITION
  | "hedging" => some .HEDGING
  | "rebalancing" => some .REBALANCING
  | "stopped" => some .STOPPED
  | "error" => some .ERROR
  | _ => none

/-- The three hedge-tier keys "h1", "h2", "h3". -/
inductive Tier where
  | h1 | h2 | h3
deriving DecidableEq, Repr

/-- A dictionary with exactly the keys "h1", "h2", "h3". -/
structure TierMap (α : Type) where
  h1 : α
  h2 : α
  h3 : α
deriving DecidableEq, Repr

/-- Lookup in a tier dictionary. -/
def TierMap.get {α : Type} (m : TierMap α) : Tier → α
  | .h1 => m.h1
  | .h2 => m.h2
  | .h3 => m.h3

/-- Update one key of a tier dictionary. -/
def TierMap.set {α : Type} (m : TierMap α) : Tier → α → TierMap α
  | .h1, v => { m with h1 := v }
  | .h2, v => { m with h2 := v }
  | .h3, v => { m with h3 := v }

/-- `f'h{i}'` for `i` in 1..3 (strategy.py's tier keys by index). -/
def tierOfIndex : Nat → Tier
  | 1 => .h1
  | 2 => .h2
  | _ => .h3

/-- Timestamps: datetime modelled by its epoch value in microseconds. -/
abbrev DateTime := Nat

/-- state.py, class State: the mutable strategy state.  `hedge_levels`
starts as the empty dict in Python; it is modelled as the all-zero tier
map until initialization fills it. -/
structure State where
  entry_price : ℚ := 0
  current_price : ℚ := 0
  deposit : ℚ := 0
  upper : ℚ := 0
  lower : ℚ := 0
  buffer : ℚ := 0
  initial_eth : ℚ := 0
  current_eth : ℚ := 0
  current_usd : ℚ := 0
  hedges : List (String × List (String × ℚ)) := []
  prev_hedges : List (String × List (String × ℚ)) := []
  hedge_levels : TierMap ℚ := ⟨0, 0, 0⟩
  hedge_sizes : TierMap ℚ := ⟨0, 0, 0⟩
  hedge_states : TierMap Bool := ⟨false, false, false⟩
  hedge_entries : TierMap ℚ := ⟨0, 0, 0⟩
  hedge_entry_times : TierMap (Option DateTime) := ⟨none, none, none⟩
  total_spot_volume : ℚ := 0
  total_futures_volume : ℚ := 0
  status : StrategyState := .INITIALIZING
deriving DecidableEq, Repr

/-- state.py State.update_price. -/
def State.update_price (s : State) (price : ℚ) : State :=
  { s with current_price := price }

/-- state.py State.update_balances. -/
def State.update_balances (s : State) (eth_balance usdt_balance : ℚ) : State :=
  { s with current_eth := eth_balance, current_usd := usdt_balance }

/-- strategy.py initialize_strategy: builds the initial state from the
current price and the deposit. -/
def initialize_strategy (current_price deposit : ℚ) : State :=
  { entry_price := current_price
    current_price := current_price
    deposit := deposit
    upper := current_price * Config.UPPER_BOUND_MULT
    lower := current_price * Config.LOWER_BOUND_MULT
    buffer := current_price * Config.BUFFER_MULT
    initial_eth := deposit * Config.SPOT_ALLOCATION * (1/2) / current_price
    current_eth := deposit * Config.SPOT_ALLOCATION * (1/2) / current_price
    current_usd := deposit * Config.SPOT_ALLOCATION * (1/2)
    hedge_levels :=
      { h1 := current_price * (98/100)
        h2 := current_price * (96/100)
        h3 := current_price * (94/100) } }

/-- strategy.py validate_leverage: total position value of the sized
tiers over the hedge allocation; `True` when within `MAX_LEVERAGE`,
otherwise the Python code raises ValueError — modelled by `false`. -/
def validate_leverage (s : State) : Bool :=
  let total_position_value :=
    s.hedge_sizes.h1 * s.hedge_levels.h1 +
    s.hedge_sizes.h2 * s.hedge_levels.h2 +
    s.hedge_sizes.h3 * s.hedge_levels.h3
  let hedge_allocation := s.deposit * Config.HEDGE_ALLOCATION
  let required_leverage := total_position_value / hedge_allocation
  decide (required_leverage ≤ Config.MAX_LEVERAGE)

/-- strategy.py calculate_hedge_sizes: assigns the three tier sizes in
place, then validates leverage.  Returns the state after the call
together with `true` when the call returned normally and `false` when
`validate_leverage` raised (the size assignment has already happened
in either case, as in the source). -/
def calculate_hedge_sizes (s : State) : State × Bool :=
  let max_loss := s.current_eth * (s.current_price - s.buffer)
  let s1 := { s with hedge_sizes :=
    { h1 := max_loss * (20/100) / (s.hedge_levels.h1 - s.buffer)
      h2 := max_loss * (30/100) / (s.hedge_levels.h2 - s.buffer)
      h3 := max_loss * (50/100) / (s.hedge_levels.h3 - s.buffer) } }
  (s1, validate_leverage s1)

/-- strategy.py open_hedge: marks the tier active, records entry price
and entry time, and accumulates futures volume.  The source reads
`datetime.now()`; the clock reading is the explicit parameter `now`. -/
def open_hedge (now : DateTime) (s : State) (tier : Tier) : State :=
  let s1 := { s with
    hedge_states := s.hedge_states.set tier true
    hedge_entries := s.hedge_entries.set tier s.current_price
    hedge_entry_times := s.hedge_entry_times.set tier (some now) }
  { s1 with total_futures_volume :=
      s1.total_futures_volume + s1.hedge_sizes.get tier * s1.current_price }

/-- strategy.py manage_hedges: for each tier index 1..3 in order, open
the tier when the price is at or below its level and it is inactive. -/
def manage_hedges (now : DateTime) (s : State) : State :=
  let step := fun (s : State) (tier : Tier) =>
    if s.current_price ≤ s.hedge_levels.get tier ∧ s.hedge_states.get tier = false
    then open_hedge now s tier else s
  step (step (step s .h1) .h2) .h3

/-- strategy.py close_hedge: on an active tier, realizes
`size × (entry − current_price)`, zeroes the tier record, and returns
the P&L; on an inactive tier, a no-op returning 0. -/
def close_hedge (s : State) (tier : Tier) : State × ℚ :=
  if s.hedge_states.get tier then
    let pnl := s.hedge_sizes.get tier * (s.hedge_entries.get tier - s.current_price)
    ({ s with
        hedge_states := s.hedge_states.set tier false
        hedge_sizes := s.hedge_sizes.set tier 0
        hedge_entries := s.hedge_entries.set tier 0
        hedge_entry_times := s.hedge_entry_times.set tier none }, pnl)
  else (s, 0)

/-- strategy.py buy_on_lower: converts all quote cash into the base
asset at the current price, accumulates spot volume, then recomputes
hedge sizes.  The Boolean is `false` when the leverage validation at
the end raised (all earlier mutations are kept, as in the source). -/
def buy_on_lower (s : State) : State × Bool :=
  let eth_to_buy := s.current_usd / s.current_price
  let s1 := { s with
    current_eth := s.current_eth + eth_to_buy
    current_usd := 0 }
  let s2 := { s1 with
    total_spot_volume := s1.total_spot_volume + eth_to_buy * s1.current_price }
  calculate_hedge_sizes s2

/-- strategy.py rebalance_at_entry: sells half the base holding into
cash, accumulates spot volume, closes tiers 3 then 2, and recomputes
hedge sizes.  The Boolean is `false` when the final leverage
validation raised. -/
def rebalance_at_entry (s : State) : State × Bool :=
  let eth_to_sell := s.current_eth * (1/2)
  let sale_proceeds := eth_to_sell * s.current_price
  let s1 := { s with
    current_eth := s.current_eth - eth_to_sell
    current_usd := s.current_usd + sale_proceeds,
    total_spot_volume := s.total_spot_volume + sale_proceeds }
  let s2 := (close_hedge s1 .h3).1
  let s3 := (close_hedge s2 .h2).1
  calculate_hedge_sizes s3

/-- strategy.py exit_all_positions: closes tiers 1, 2, 3 summing their
P&L, then adds the base-asset value plus cash minus the deposit.
Returns the state after the call and the total P&L. -/
def exit_all_positions (s : State) : State × ℚ :=
  let r1 := close_hedge s .h1
  let r2 := close_hedge r1.1 .h2
  let r3 := close_hedge r2.1 .h3
  let total_pnl := r1.2 + r2.2 + r3.2
  let eth_value := r3.1.current_eth * r3.1.current_price
  (r3.1, total_pnl + eth_value + r3.1.current_usd - r3.1.deposit)

/-- analyzer.py, the loop body of calculate_funding_cost: the funding
contribution of one tier at clock reading `now` (epoch microseconds):
zero for an inactive tier or a missing entry time, otherwise
`position_value × FUNDING_RATE × (hours_passed / HOURS_PER_FUNDING)`. -/
def tierFunding (s : State) (now : DateTime) (tier : Tier) : ℚ :=
  if s.hedge_states.get tier then
    match s.hedge_entry_times.get tier with
    | some entry_time =>
        let position_value := s.hedge_sizes.get tier * s.current_price
        let hours_passed := ((now : ℚ) - (entry_time : ℚ)) / 1000000 / 3600
        let funding_periods := hours_passed / Config.HOURS_PER_FUNDING
        position_value * Config.FUNDING_RATE * funding_periods
    | none => 0
  else 0

/-- analyzer.py calculate_funding_cost: sums the funding contribution
of tiers 1..3.  The source reads `datetime.now()`; the clock reading
is the explicit parameter `now`. -/
def calculate_funding_cost (s : State) (now : DateTime) : ℚ :=
  tierFunding s now .h1 + tierFunding s now .h2 + tierFunding s now .h3

/-- Little-endian decimal digits of a natural number (empty for 0). -/
def natToDigitsRev (n : Nat) : List Char :=
  if h : n = 0 then []
  else Char.ofNat (48 + n % 10) :: natToDigitsRev (n / 10)
decreasing_by exact Nat.div_lt_self (Nat.pos_of_ne_zero h) (by norm_num)

/-- Value of a little-endian list of decimal digit characters. -/
def digitsRevToNat : List Char → Nat
  | [] => 0
  | c :: cs => (c.toNat - 48) + 10 * digitsRevToNat cs

/-- datetime.isoformat, modelled as the decimal string of the epoch
value: an injective string encoding of timestamps with a total left
inverse, standing in for the ISO-8601 text form. -/
def isoformat (t : DateTime) : String :=
  if t = 0 then "0" else String.mk (natToDigitsRev t).reverse

/-- datetime.fromisoformat, the parser inverting `isoformat`; fails
(Python raises) on a string that is not a non-empty digit string. -/
def fromisoformat (str : String) : Option DateTime :=
  if str.data ≠ [] ∧ str.data.all (fun c => 48 ≤ c.toNat && c.toNat ≤ 57) then
    some (digitsRevToNat str.data.reverse)
  else none

/-- The snapshot record produced by State.to_dict: a flat mapping of
the serialized State fields (timestamps as strings, status as its
string tag). -/
structure SnapshotRecord where
  entry_price : ℚ
  current_price : ℚ
  deposit : ℚ
  upper : ℚ
  lower : ℚ
  buffer : ℚ
  initial_eth : ℚ
  current_eth : ℚ
  current_usd : ℚ
  hedge_levels : TierMap ℚ
  hedge_sizes : TierMap ℚ
  hedge_states : TierMap Bool
  hedge_entries : TierMap ℚ
  hedge_entry_times : TierMap (Option String)
  total_spot_volume : ℚ
  total_futures_volume : ℚ
  status : String
deriving DecidableEq, Repr

/-- state.py State.to_dict: serializes the state for persistence.
Note: the `hedges` and `prev_hedges` fields are not serialized. -/
def State.to_dict (s : State) : SnapshotRecord :=
  { entry_price := s.entry_price
    current_price := s.current_price
    deposit := s.deposit
    upper := s.upper
    lower := s.lower
    buffer := s.buffer
    initial_eth := s.initial_eth
    current_eth := s.current_eth
    current_usd := s.current_usd
    hedge_levels := s.hedge_levels
    hedge_sizes := s.hedge_sizes
    hedge_states := s.hedge_states
    hedge_entries := s.hedge_entries
    hedge_entry_times :=
      { h1 := s.hedge_entry_times.h1.map isoformat
        h2 := s.hedge_entry_times.h2.map isoformat
        h3 := s.hedge_entry_times.h3.map isoformat }
    total_spot_volume := s.total_spot_volume
    total_futures_volume := s.total_futures_volume
    status := s.status.value }

/-- `datetime.fromisoformat(v) if v else None` for one serialized
entry time; `none` when parsing raised. -/
def parseEntryTime : Option String → Option (Option DateTime)
  | none => some none
  | some str => (fromisoformat str).map some

/-- state.py State.from_dict: builds a fresh `State()` (so `hedges`
and `prev_hedges` are the empty dicts) and assigns the serialized
fields back; `none` when a timestamp or the status tag fails to
parse (Python raises). -/
def State.from_dict (d : SnapshotRecord) : Option State := do
  let t1 ← parseEntryTime d.hedge_entry_times.h1
  let t2 ← parseEntryTime d.hedge_entry_times.h2
  let t3 ← parseEntryTime d.hedge_entry_times.h3
  let st ← strategyStateOfValue d.status
  pure
    { entry_price := d.entry_price
      current_price := d.current_price
      deposit := d.deposit
      upper := d.upper
      lower := d.lower
      buffer := d.buffer
      initial_eth := d.initial_eth
      current_eth := d.current_eth
      current_usd := d.current_usd
      hedge_levels := d.hedge_levels
      hedge_sizes := d.hedge_sizes
      hedge_states := d.hedge_states
      hedge_entries := d.hedge_entries
      hedge_entry_times := ⟨t1, t2, t3⟩
      total_spot_volume := d.total_spot_volume
      total_futures_volume := d.total_futures_volume
      status := st }

/-- One tier's clause of the spec's pairing invariant, strong form:
the entry time is non-null iff the tier is active, and an inactive
tier holds zero size and zero entry price. -/
def tierPairedStrong (s : State) (t : Tier) : Prop :=
  (s.hedge_entry_times.get t ≠ none ↔ s.hedge_states.get t = true) ∧
  (s.hedge_states.get t = false → s.hedge_sizes.get t = 0 ∧ s.hedge_entries.get t = 0)

instance (s : State) (t : Tier) : Decidable (tierPairedStrong s t) := by
  unfold tierPairedStrong; infer_instance

/-- The spec's pairing invariant over all three tiers, strong form
(inactive tiers hold zero sizes as well). -/
def pairedStrong (s : State) : Prop :=
  tierPairedStrong s .h1 ∧ tierPairedStrong s .h2 ∧ tierPairedStrong s .h3

instance (s : State) : Decidable (pairedStrong s) := by
  unfold pairedStrong; infer_instance

/-- One tier's clause of the pairing invariant, weak form: the entry
time is non-null iff the tier is active, and an inactive tier holds a
zero entry price (its precomputed target size may be non-zero). -/
def tierPairedWeak (s : State) (t : Tier) : Prop :=
  (s.hedge_entry_times.get t ≠ none ↔ s.hedge_states.get t = true) ∧
  (s.hedge_states.get t = false → s.hedge_entries.get t = 0)

instance (s : State) (t : Tier) : Decidable (tierPairedWeak s t) := by
  unfold tierPairedWeak; infer_instance

/-- The pairing invariant over all three tiers, weak form. -/
def pairedWeak (s : State) : Prop :=
  tierPairedWeak s .h1 ∧ tierPairedWeak s .h2 ∧ tierPairedWeak s .h3

instance (s : State) : Decidable (pairedWeak s) := by
  unfold pairedWeak; infer_instance

/-- Modelled from the spec (§4.6), for refinement comparison with the
code's `tierFunding`: one tier's funding contribution,
`position_value × funding_rate × (hours_elapsed / hours_per_funding_period)`
for an active tier with an entry time, and zero otherwise. -/
def fundingContributionSpec (s : State) (now : DateTime) (t : Tier) : ℚ :=
  if s.hedge_states.get t = true ∧ s.hedge_entry_times.get t ≠ none then
    s.hedge_sizes.get t * s.current_price * Config.FUNDING_RATE *
      ((((now : ℚ) - (((s.hedge_entry_times.get t).getD 0 : Nat) : ℚ)) / 1000000 / 3600) /
        Config.HOURS_PER_FUNDING)
  else 0

/-- A state in which recomputing hedge sizes breaches the leverage cap:
the initial state for price 100 and deposit 1000, with the base-asset
holding grown to 1000 units. -/
def overleveragedState : State :=
  { initialize_strategy 100 1000 with current_eth := 1000 }

/-- A state in which rebalance-at-entry breaches the leverage cap when
it recomputes hedge sizes at the end: price at entry (within the
rebalance band), base-asset holding grown to 10000 units. -/
def rebalanceOverleveragedState : State :=
  { initialize_strategy 100 1000 with current_eth := 10000 }

/-- The initial state for price 100 and deposit 1000 after the price
falls to 91, strictly below the buffer band 92: the buy-the-dip guard
`current_price ≤ buffer` holds strictly. -/
def dipBelowBufferState : State :=
  (initialize_strategy 100 1000).update_price 91

/-- The initial state for price 100 and deposit 1000 after the price
falls to the first hedge level 98: the buy-the-dip / rebalance guards
and sizing are exercised at the boundary `current_price = h1`. -/
def tierOneTouchState : State :=
  (initialize_strategy 100 1000).update_price 98

/-- `tierOneTouchState` with hedge sizes computed and tier 1 opened at
clock reading 0: a state with one active, funded hedge position. -/
def fundedState : State :=
  open_hedge 0 (calculate_hedge_sizes tierOneTouchState).1 .h1

/-- The initial state for price 100 and deposit 1000. -/
def exampleInitState : State :=
  initialize_strategy 100 1000

/-- The initial state for price 100 and deposit 1000 after the price
falls exactly to the buffer band 92 (buy-the-dip guard boundary). -/
def bufferTouchState : State :=
  (initialize_strategy 100 1000).update_price 92

end Weaver

namespace Weaver

/-- A tier dictionary equals a literal iff its three entries do. -/
theorem TierMap.eq_mk_iff {α : Type} (m : TierMap α) (a b c : α) :
    m = ⟨a, b, c⟩ ↔ m.h1 = a ∧ m.h2 = b ∧ m.h3 = c := by
  cases m
  simp

/-! Serialization round-trip lemmas. -/

/-- Decimal digit characters decode back to the digit value. -/
theorem digit_toNat (d : Nat) (hd : d < 10) :
    (Char.ofNat (48 + d)).toNat = 48 + d := by
  interval_cases d <;> decide

/-- Decimal digit characters satisfy the parser's digit test. -/
theorem digit_isDigit (d : Nat) (hd : d < 10) :
    (48 ≤ (Char.ofNat (48 + d)).toNat && (Char.ofNat (48 + d)).toNat ≤ 57) = true := by
  interval_cases d <;> decide

/-- Decoding the little-endian digits of `n` recovers `n`. -/
theorem digitsRevToNat_natToDigitsRev (n : Nat) :
    digitsRevToNat (natToDigitsRev n) = n := by
  induction n using Nat.strong_induction_on with
  | _ n ih =>
    rw [natToDigitsRev]
    split
    · rename_i h; simp [digitsRevToNat, h]
    · rename_i h
      have h10 : n % 10 < 10 := Nat.mod_lt _ (by norm_num)
      have hrec := ih (n / 10) (Nat.div_lt_self (Nat.pos_of_ne_zero h) (by norm_num))
      simp [digitsRevToNat, hrec, digit_toNat _ h10]
      omega

/-- Every character produced by `natToDigitsRev` is a decimal digit. -/
theorem natToDigitsRev_all_digits (n : Nat) :
    ((natToDigitsRev n).all fun c => 48 ≤ c.toNat && c.toNat ≤ 57) = true := by
  induction n using Nat.strong_induction_on with
  | _ n ih =>
    rw [natToDigitsRev]
    split
    · rfl
    · rename_i h
      have h10 : n % 10 < 10 := Nat.mod_lt _ (by norm_num)
      have hrec := ih (n / 10) (Nat.div_lt_self (Nat.pos_of_ne_zero h) (by norm_num))
      simp [List.all_cons, hrec, digit_isDigit _ h10]

/-- `natToDigitsRev` is non-empty on positive input. -/
theorem natToDigitsRev_ne_nil (n : Nat) (h : n ≠ 0) : natToDigitsRev n ≠ [] := by
  rw [natToDigitsRev]
  simp [h]

/-- The timestamp parser inverts the timestamp serializer. -/
theorem fromisoformat_isoformat (t : DateTime) :
    fromisoformat (isoformat t) = some t := by
  by_cases h : t = 0
  · subst h; decide
  · rw [isoformat, if_neg h]
    have hdata : (String.mk (natToDigitsRev t).reverse).data = (natToDigitsRev t).reverse := rfl
    rw [fromisoformat]
    rw [if_pos]
    · rw [hdata, List.reverse_reverse, digitsRevToNat_natToDigitsRev]
    · rw [hdata]
      refine ⟨by simp [natToDigitsRev_ne_nil t h], ?_⟩
      rw [List.all_reverse]
      exact natToDigitsRev_all_digits t

/-- Serializing then parsing one optional entry time is the identity. -/
theorem parseEntryTime_isoformat (o : Option DateTime) :
    parseEntryTime (o.map isoformat) = some o := by
  cases o with
  | none => rfl
  | some t => simp [parseEntryTime, fromisoformat_isoformat]

/-- The status tag parser inverts the status serializer. -/
theorem strategyStateOfValue_value (st : StrategyState) :
    strategyStateOfValue st.value = some st := by
  cases st <;> rfl

/-- C4 (counterexample): a state whose `hedges` dictionary is
non-empty is not reproduced by `from_dict ∘ to_dict` — `to_dict` drops
the `hedges` and `prev_hedges` fields, so the round trip resets them
to empty. -/
theorem snapshot_roundtrip_counterexample :
    State.from_dict (State.to_dict { hedges := [("h1", [("size", 1), ("price", 98)])] })
      ≠ some { hedges := [("h1", [("size", 1), ("price", 98)])] } := by
  decide

/-- C5: for every current_price > 0 and deposit > 0, the initial state
satisfies buffer < lower < entry_price < upper, splits the spot sleeve
so that current_eth × current_price + current_usd =
spot_allocation × deposit, and has strictly decreasing hedge trigger
levels h1 > h2 > h3. -/
theorem initialize_bands_split_levels (p d : ℚ) (hp : 0 < p) (hd : 0 < d) :
    (initialize_strategy p d).buffer < (initialize_strategy p d).lower ∧
    (initialize_strategy p d).lower < (initialize_strategy p d).entry_price ∧
    (initialize_strategy p d).entry_price < (initialize_strategy p d).upper ∧
    (initialize_strategy p d).current_eth * (initialize_strategy p d).current_price +
      (initialize_strategy p d).current_usd = Config.SPOT_ALLOCATION * d ∧
    (initialize_strategy p d).hedge_levels.h2 < (initialize_strategy p d).hedge_levels.h1 ∧
    (initialize_strategy p d).hedge_levels.h3 < (initialize_strategy p d).hedge_levels.h2 := by
  simp only [initialize_strategy, Config.UPPER_BOUND_MULT, Config.LOWER_BOUND_MULT,
    Config.BUFFER_MULT, Config.SPOT_ALLOCATION]
  refine ⟨by linarith, by linarith, by linarith, ?_, by linarith, by linarith⟩
  field_simp
  ring

/-- C5 witness: the properties hold concretely at price 100 and
deposit 1000. -/
theorem initialize_bands_split_levels_witness :
    ((0 : ℚ) < 100 ∧ (0 : ℚ) < 1000) ∧
    ((initialize_strategy 100 1000).buffer < (initialize_strategy 100 1000).lower ∧
    (initialize_strategy 100 1000).lower < (initialize_strategy 100 1000).entry_price ∧
    (initialize_strategy 100 1000).entry_price < (initialize_strategy 100 1000).upper ∧
    (initialize_strategy 100 1000).current_eth * (initialize_strategy 100 1000).current_price +
      (initialize_strategy 100 1000).current_usd = Config.SPOT_ALLOCATION * 1000 ∧
    (initialize_strategy 100 1000).hedge_levels.h2 < (initialize_strategy 100 1000).hedge_levels.h1 ∧
    (initialize_strategy 100 1000).hedge_levels.h3 < (initialize_strategy 100 1000).hedge_levels.h2) :=
  ⟨⟨by norm_num, by norm_num⟩,
    initialize_bands_split_levels 100 1000 (by norm_num) (by norm_num)⟩

/-- C3 counterexample: on the buy-the-dip path with the price strictly
below the buffer (price 91, buffer 92, non-negative holding), the
recomputed tier-1 hedge size is negative, refuting the claim that
every recomputed size is non-negative. -/
theorem hedge_sizes_negative_on_dip :
    (0 : ℚ) ≤ dipBelowBufferState.current_eth ∧
    dipBelowBufferState.current_price ≤ dipBelowBufferState.buffer ∧
    (buy_on_lower dipBelowBufferState).1.hedge_sizes.h1 < 0 := by
  refine ⟨?_, ?_, ?_⟩ <;>
    norm_num [dipBelowBufferState, initialize_strategy, State.update_price, buy_on_lower,
      calculate_hedge_sizes, Config.SPOT_ALLOCATION, Config.BUFFER_MULT,
      Config.LOWER_BOUND_MULT, Config.UPPER_BOUND_MULT]

/-- C3 (amended): each recomputed tier size equals
weight × current_eth × (current_price − buffer) / (level − buffer),
and is non-negative whenever current_eth ≥ 0, current_price ≥ buffer,
and every hedge level lies strictly above the buffer. -/
theorem hedge_sizes_nonneg (s : State) (he : 0 ≤ s.current_eth)
    (hp : s.buffer ≤ s.current_price)
    (hl1 : s.buffer < s.hedge_levels.h1) (hl2 : s.buffer < s.hedge_levels.h2)
    (hl3 : s.buffer < s.hedge_levels.h3) :
    (calculate_hedge_sizes s).1.hedge_sizes.h1 =
      s.current_eth * (s.current_price - s.buffer) * (20/100) / (s.hedge_levels.h1 - s.buffer) ∧
    (calculate_hedge_sizes s).1.hedge_sizes.h2 =
      s.current_eth * (s.current_price - s.buffer) * (30/100) / (s.hedge_levels.h2 - s.buffer) ∧
    (calculate_hedge_sizes s).1.hedge_sizes.h3 =
      s.current_eth * (s.current_price - s.buffer) * (50/100) / (s.hedge_levels.h3 - s.buffer) ∧
    0 ≤ (calculate_hedge_sizes s).1.hedge_sizes.h1 ∧
    0 ≤ (calculate_hedge_sizes s).1.hedge_sizes.h2 ∧
    0 ≤ (calculate_hedge_sizes s).1.hedge_sizes.h3 := by
  have hml : 0 ≤ s.current_eth * (s.current_price - s.buffer) :=
    mul_nonneg he (by linarith)
  refine ⟨rfl, rfl, rfl, ?_, ?_, ?_⟩ <;>
    exact div_nonneg (mul_nonneg hml (by norm_num)) (by linarith)

/-- C3 witness: the amended property holds concretely at the initial
state for price 100 and deposit 1000. -/
theorem hedge_sizes_nonneg_witness :
    ((0 : ℚ) ≤ exampleInitState.current_eth ∧
      exampleInitState.buffer ≤ exampleInitState.current_price ∧
      exampleInitState.buffer < exampleInitState.hedge_levels.h1 ∧
      exampleInitState.buffer < exampleInitState.hedge_levels.h2 ∧
      exampleInitState.buffer < exampleInitState.hedge_levels.h3) ∧
    ((calculate_hedge_sizes exampleInitState).1.hedge_sizes.h1 =
      exampleInitState.current_eth * (exampleInitState.current_price - exampleInitState.buffer) *
        (20/100) / (exampleInitState.hedge_levels.h1 - exampleInitState.buffer) ∧
    (calculate_hedge_sizes exampleInitState).1.hedge_sizes.h2 =
      exampleInitState.current_eth * (exampleInitState.current_price - exampleInitState.buffer) *
        (30/100) / (exampleInitState.hedge_levels.h2 - exampleInitState.buffer) ∧
    (calculate_hedge_sizes exampleInitState).1.hedge_sizes.h3 =
      exampleInitState.current_eth * (exampleInitState.current_price - exampleInitState.buffer) *
        (50/100) / (exampleInitState.hedge_levels.h3 - exampleInitState.buffer) ∧
    0 ≤ (calculate_hedge_sizes exampleInitState).1.hedge_sizes.h1 ∧
    0 ≤ (calculate_hedge_sizes exampleInitState).1.hedge_sizes.h2 ∧
    0 ≤ (calculate_hedge_sizes exampleInitState).1.hedge_sizes.h3) := by
  have h1 : (0 : ℚ) ≤ exampleInitState.current_eth := by
    norm_num [exampleInitState, initialize_strategy, Config.SPOT_ALLOCATION]
  have h2 : exampleInitState.buffer ≤ exampleInitState.current_price := by
    norm_num [exampleInitState, initialize_strategy, Config.BUFFER_MULT]
  have h3 : exampleInitState.buffer < exampleInitState.hedge_levels.h1 := by
    norm_num [exampleInitState, initialize_strategy, Config.BUFFER_MULT]
  have h4 : exampleInitState.buffer < exampleInitState.hedge_levels.h2 := by
    norm_num [exampleInitState, initialize_strategy, Config.BUFFER_MULT]
  have h5 : exampleInitState.buffer < exampleInitState.hedge_levels.h3 := by
    norm_num [exampleInitState, initialize_strategy, Config.BUFFER_MULT]
  exact ⟨⟨h1, h2, h3, h4, h5⟩, hedge_sizes_nonneg exampleInitState h1 h2 h3 h4 h5⟩

/-- C8: for a state with 0 < current_price ≤ buffer, buy-the-dip
converts all quote cash into base asset at the current price
(afterwards current_usd = 0 and current_eth grows by the old
current_usd / current_price), grows the spot volume accumulator by the
proceeds (the old current_usd), and recomputes the hedge sizes at the
enlarged holding. -/
theorem buy_on_lower_spec (s : State) (hp : 0 < s.current_price)
    (hb : s.current_price ≤ s.buffer) :
    (buy_on_lower s).1.current_usd = 0 ∧
    (buy_on_lower s).1.current_eth = s.current_eth + s.current_usd / s.current_price ∧
    (buy_on_lower s).1.total_spot_volume = s.total_spot_volume + s.current_usd ∧
    (buy_on_lower s).1.hedge_sizes.h1 =
      (s.current_eth + s.current_usd / s.current_price) * (s.current_price - s.buffer) *
        (20/100) / (s.hedge_levels.h1 - s.buffer) ∧
    (buy_on_lower s).1.hedge_sizes.h2 =
      (s.current_eth + s.current_usd / s.current_price) * (s.current_price - s.buffer) *
        (30/100) / (s.hedge_levels.h2 - s.buffer) ∧
    (buy_on_lower s).1.hedge_sizes.h3 =
      (s.current_eth + s.current_usd / s.current_price) * (s.current_price - s.buffer) *
        (50/100) / (s.hedge_levels.h3 - s.buffer) := by
  refine ⟨rfl, rfl, ?_, rfl, rfl, rfl⟩
  show s.total_spot_volume + s.current_usd / s.current_price * s.current_price =
    s.total_spot_volume + s.current_usd
  rw [div_mul_cancel₀ _ hp.ne']

/-- C8 witness: the property holds concretely when the price touches
the buffer band at 92 from the initial state for price 100 and
deposit 1000. -/
theorem buy_on_lower_spec_witness :
    ((0 : ℚ) < bufferTouchState.current_price ∧
      bufferTouchState.current_price ≤ bufferTouchState.buffer) ∧
    ((buy_on_lower bufferTouchState).1.current_usd = 0 ∧
    (buy_on_lower bufferTouchState).1.current_eth =
      bufferTouchState.current_eth + bufferTouchState.current_usd / bufferTouchState.current_price ∧
    (buy_on_lower bufferTouchState).1.total_spot_volume =
      bufferTouchState.total_spot_volume + bufferTouchState.current_usd ∧
    (buy_on_lower bufferTouchState).1.hedge_sizes.h1 =
      (bufferTouchState.current_eth + bufferTouchState.current_usd / bufferTouchState.current_price) *
        (bufferTouchState.current_price - bufferTouchState.buffer) *
        (20/100) / (bufferTouchState.hedge_levels.h1 - bufferTouchState.buffer) ∧
    (buy_on_lower bufferTouchState).1.hedge_sizes.h2 =
      (bufferTouchState.current_eth + bufferTouchState.current_usd / bufferTouchState.current_price) *
        (bufferTouchState.current_price - bufferTouchState.buffer) *
        (30/100) / (bufferTouchState.hedge_levels.h2 - bufferTouchState.buffer) ∧
    (buy_on_lower bufferTouchState).1.hedge_sizes.h3 =
      (bufferTouchState.current_eth + bufferTouchState.current_usd / bufferTouchState.current_price) *
        (bufferTouchState.current_price - bufferTouchState.buffer) *
        (50/100) / (bufferTouchState.hedge_levels.h3 - bufferTouchState.buffer)) := by
  have h1 : (0 : ℚ) < bufferTouchState.current_price := by
    norm_num [bufferTouchState, initialize_strategy, State.update_price]
  have h2 : bufferTouchState.current_price ≤ bufferTouchState.buffer := by
    norm_num [bufferTouchState, initialize_strategy, State.update_price, Config.BUFFER_MULT]
  exact ⟨⟨h1, h2⟩, buy_on_lower_spec bufferTouchState h1 h2⟩

/-- C1: evaluation at a state whose resizing breaches max leverage.
`calculate_hedge_sizes` reports the LeverageExceeded error (flag
`false`) yet the caller's state already carries the new hedge sizes;
on the rebalance-at-entry path the spot conversion (current_eth,
current_usd, total_spot_volume) is likewise already committed when the
error propagates — the triggering action is not rolled back. -/
theorem leverage_error_keeps_mutation :
    ((calculate_hedge_sizes overleveragedState).2 = false ∧
      (calculate_hedge_sizes overleveragedState).1.hedge_sizes ≠
        overleveragedState.hedge_sizes) ∧
    ((rebalance_at_entry rebalanceOverleveragedState).2 = false ∧
      (rebalance_at_entry rebalanceOverleveragedState).1.current_eth ≠
        rebalanceOverleveragedState.current_eth ∧
      (rebalance_at_entry rebalanceOverleveragedState).1.current_usd ≠
        rebalanceOverleveragedState.current_usd ∧
      (rebalance_at_entry rebalanceOverleveragedState).1.total_spot_volume ≠
        rebalanceOverleveragedState.total_spot_volume) := by
  refine ⟨⟨?_, ?_⟩, ?_, ?_, ?_, ?_⟩ <;>
    norm_num [overleveragedState, rebalanceOverleveragedState, initialize_strategy,
      calculate_hedge_sizes, validate_leverage, rebalance_at_entry, close_hedge,
      TierMap.get, TierMap.set, decide_eq_false_iff_not, TierMap.mk.injEq,
      Config.SPOT_ALLOCATION, Config.HEDGE_ALLOCATION, Config.MAX_LEVERAGE,
      Config.BUFFER_MULT, Config.LOWER_BOUND_MULT, Config.UPPER_BOUND_MULT]

/-- C2 counterexample: recomputing hedge sizes on the freshly
initialized state (price 100, deposit 1000) assigns non-zero sizes to
all three inactive tiers, so the strong pairing invariant (inactive
tiers hold zero sizes) holds before the operation and fails after. -/
theorem pairing_invariant_not_preserved :
    pairedStrong exampleInitState ∧
    ¬ pairedStrong (calculate_hedge_sizes exampleInitState).1 := by
  constructor
  · refine ⟨⟨?_, ?_⟩, ⟨?_, ?_⟩, ⟨?_, ?_⟩⟩ <;>
      simp [exampleInitState, initialize_strategy, tierPairedStrong, TierMap.get]
  · intro h
    have := h.1.2 (by simp [exampleInitState, initialize_strategy, calculate_hedge_sizes, TierMap.get])
    have hz := this.1
    norm_num [exampleInitState, initialize_strategy, calculate_hedge_sizes, TierMap.get,
      Config.SPOT_ALLOCATION, Config.BUFFER_MULT] at hz

/-- Weak pairing is untouched by recomputing hedge sizes. -/
theorem pairedWeak_calc (s : State) (h : pairedWeak s) :
    pairedWeak (calculate_hedge_sizes s).1 := h

/-- Weak pairing is preserved by opening any tier. -/
theorem pairedWeak_open (now : DateTime) (s : State) (t : Tier) (h : pairedWeak s) :
    pairedWeak (open_hedge now s t) := by
  obtain ⟨w1, w2, w3⟩ := h
  cases t <;>
    exact ⟨by simp_all [open_hedge, tierPairedWeak, TierMap.get, TierMap.set],
           by simp_all [open_hedge, tierPairedWeak, TierMap.get, TierMap.set],
           by simp_all [open_hedge, tierPairedWeak, TierMap.get, TierMap.set]⟩

/-- Weak pairing is preserved by closing any tier. -/
theorem pairedWeak_close (s : State) (t : Tier) (h : pairedWeak s) :
    pairedWeak (close_hedge s t).1 := by
  obtain ⟨w1, w2, w3⟩ := h
  cases t <;> unfold close_hedge <;> split <;>
    exact ⟨by simp_all [tierPairedWeak, TierMap.get, TierMap.set],
           by simp_all [tierPairedWeak, TierMap.get, TierMap.set],
           by simp_all [tierPairedWeak, TierMap.get, TierMap.set]⟩

/-- Weak pairing holds for every freshly initialized state. -/
theorem pairedWeak_init (p d : ℚ) : pairedWeak (initialize_strategy p d) := by
  refine ⟨⟨?_, ?_⟩, ⟨?_, ?_⟩, ⟨?_, ?_⟩⟩ <;>
    simp [initialize_strategy, tierPairedWeak, TierMap.get]

/-- C2 (amended): every StrategyEngine operation preserves the pairing
invariant in its weak form — the entry time is non-null iff the tier
is active, and inactive tiers hold zero entry prices.  (The strong
form fails: `calculate_hedge_sizes` precomputes non-zero target sizes
for inactive tiers.) -/
theorem pairing_weak_preserved (s : State) (now : DateTime) (t : Tier) (p d : ℚ)
    (h : pairedWeak s) :
    pairedWeak (initialize_strategy p d) ∧
    pairedWeak (calculate_hedge_sizes s).1 ∧
    pairedWeak (manage_hedges now s) ∧
    pairedWeak (open_hedge now s t) ∧
    pairedWeak (close_hedge s t).1 ∧
    pairedWeak (buy_on_lower s).1 ∧
    pairedWeak (rebalance_at_entry s).1 ∧
    pairedWeak (exit_all_positions s).1 := by
  have hstep : ∀ (u : State) (tt : Tier), pairedWeak u →
      pairedWeak (if u.current_price ≤ u.hedge_levels.get tt ∧ u.hedge_states.get tt = false
        then open_hedge now u tt else u) := by
    intro u tt hu
    split
    · exact pairedWeak_open now u tt hu
    · exact hu
  refine ⟨pairedWeak_init p d, pairedWeak_calc s h, ?_, pairedWeak_open now s t h,
    pairedWeak_close s t h, ?_, ?_, ?_⟩
  · simp only [manage_hedges]
    exact hstep _ _ (hstep _ _ (hstep _ _ h))
  · exact pairedWeak_calc _ h
  · exact pairedWeak_calc _ (pairedWeak_close _ _ (pairedWeak_close _ _ h))
  · exact pairedWeak_close _ _ (pairedWeak_close _ _ (pairedWeak_close _ _ h))

/-- C2 witness: the preservation theorem applied concretely to the
initial state for price 100 and deposit 1000, tier 1, clock reading 0,
and the re-initialization inputs price 50, deposit 10. -/
theorem pairing_weak_preserved_witness :
    pairedWeak exampleInitState ∧
    (pairedWeak (initialize_strategy 50 10) ∧
    pairedWeak (calculate_hedge_sizes exampleInitState).1 ∧
    pairedWeak (manage_hedges 0 exampleInitState) ∧
    pairedWeak (open_hedge 0 exampleInitState .h1) ∧
    pairedWeak (close_hedge exampleInitState .h1).1 ∧
    pairedWeak (buy_on_lower exampleInitState).1 ∧
    pairedWeak (rebalance_at_entry exampleInitState).1 ∧
    pairedWeak (exit_all_positions exampleInitState).1) := by
  have h : pairedWeak exampleInitState := by
    refine ⟨⟨?_, ?_⟩, ⟨?_, ?_⟩, ⟨?_, ?_⟩⟩ <;>
      simp [exampleInitState, initialize_strategy, tierPairedWeak, TierMap.get]
  exact ⟨h, pairing_weak_preserved exampleInitState 0 .h1 50 10 h⟩

/-- C6 counterexample: hedge entry and funding accrual read the system
clock (`datetime.now()`) inside the call, so two runs on equal
Python-level inputs (state and tier) differ when the clock readings
differ: opening tier 1 of the same state at clock readings 0 and 1
yields different states, and the funding cost of the same funded state
differs between clock readings 0 and 8 hours. -/
theorem clock_read_counterexample :
    open_hedge 0 exampleInitState .h1 ≠ open_hedge 1 exampleInitState .h1 ∧
    calculate_funding_cost fundedState 0 ≠ calculate_funding_cost fundedState 28800000000 := by
  constructor
  · intro h
    have := congrArg (fun st => st.hedge_entry_times.h1) h
    simp [open_hedge, TierMap.set] at this
  · norm_num [fundedState, tierOneTouchState, calculate_funding_cost, tierFunding,
      open_hedge, calculate_hedge_sizes, initialize_strategy, State.update_price,
      TierMap.get, TierMap.set, Config.SPOT_ALLOCATION, Config.BUFFER_MULT,
      Config.FUNDING_RATE, Config.HOURS_PER_FUNDING]

/-- C6 (amended): once the clock reading is an injected parameter,
every core operation is a deterministic function of its explicit
inputs plus that reading; `open_hedge` stores exactly the injected
reading as the tier's entry time, and no other field of its result
depends on the reading. -/
theorem clock_injected_deterministic (s : State) (t : Tier) (n n' : DateTime) :
    (open_hedge n s t).hedge_entry_times.get t = some n ∧
    { open_hedge n s t with hedge_entry_times := s.hedge_entry_times } =
      { open_hedge n' s t with hedge_entry_times := s.hedge_entry_times } := by
  cases t <;> exact ⟨rfl, rfl⟩

/-- C7: exit_all_positions deactivates all three tiers and returns the
sum of the P&L of each previously active tier, computed as
size × (entry − current_price), plus the base-asset value at the
current price plus the quote cash minus the deposit. -/
theorem exit_all_positions_pnl (s : State) :
    (exit_all_positions s).1.hedge_states = ⟨false, false, false⟩ ∧
    (exit_all_positions s).2 =
      (if s.hedge_states.h1 then s.hedge_sizes.h1 * (s.hedge_entries.h1 - s.current_price) else 0) +
      (if s.hedge_states.h2 then s.hedge_sizes.h2 * (s.hedge_entries.h2 - s.current_price) else 0) +
      (if s.hedge_states.h3 then s.hedge_sizes.h3 * (s.hedge_entries.h3 - s.current_price) else 0) +
      s.current_eth * s.current_price + s.current_usd - s.deposit := by
  cases h1 : s.hedge_states.h1 <;> cases h2 : s.hedge_states.h2 <;> cases h3 : s.hedge_states.h3 <;>
    simp [exit_all_positions, close_hedge, TierMap.get, TierMap.set, TierMap.eq_mk_iff,
      h1, h2, h3]

/-- C10: exit_all_positions only touches the per-tier records: the
holdings (current_eth, current_usd — the liquidation value enters the
returned P&L but the fields are not zeroed), the entry and band
prices, the hedge levels, the volume accumulators, and every other
non-tier field are unchanged; all active flags end false, and each
previously active tier has its size, entry and entry time reset while
inactive tiers keep their records. -/
theorem exit_all_positions_frame (s : State) :
    (exit_all_positions s).1.current_eth = s.current_eth ∧
    (exit_all_positions s).1.current_usd = s.current_usd ∧
    (exit_all_positions s).1.entry_price = s.entry_price ∧
    (exit_all_positions s).1.current_price = s.current_price ∧
    (exit_all_positions s).1.deposit = s.deposit ∧
    (exit_all_positions s).1.upper = s.upper ∧
    (exit_all_positions s).1.lower = s.lower ∧
    (exit_all_positions s).1.buffer = s.buffer ∧
    (exit_all_positions s).1.initial_eth = s.initial_eth ∧
    (exit_all_positions s).1.hedge_levels = s.hedge_levels ∧
    (exit_all_positions s).1.total_spot_volume = s.total_spot_volume ∧
    (exit_all_positions s).1.total_futures_volume = s.total_futures_volume ∧
    (exit_all_positions s).1.hedges = s.hedges ∧
    (exit_all_positions s).1.prev_hedges = s.prev_hedges ∧
    (exit_all_positions s).1.status = s.status ∧
    (exit_all_positions s).1.hedge_states = ⟨false, false, false⟩ ∧
    (exit_all_positions s).1.hedge_sizes.h1 =
      (if s.hedge_states.h1 then 0 else s.hedge_sizes.h1) ∧
    (exit_all_positions s).1.hedge_sizes.h2 =
      (if s.hedge_states.h2 then 0 else s.hedge_sizes.h2) ∧
    (exit_all_positions s).1.hedge_sizes.h3 =
      (if s.hedge_states.h3 then 0 else s.hedge_sizes.h3) ∧
    (exit_all_positions s).1.hedge_entries.h1 =
      (if s.hedge_states.h1 then 0 else s.hedge_entries.h1) ∧
    (exit_all_positions s).1.hedge_entries.h2 =
      (if s.hedge_states.h2 then 0 else s.hedge_entries.h2) ∧
    (exit_all_positions s).1.hedge_entries.h3 =
      (if s.hedge_states.h3 then 0 else s.hedge_entries.h3) ∧
    (exit_all_positions s).1.hedge_entry_times.h1 =
      (if s.hedge_states.h1 then none else s.hedge_entry_times.h1) ∧
    (exit_all_positions s).1.hedge_entry_times.h2 =
      (if s.hedge_states.h2 then none else s.hedge_entry_times.h2) ∧
    (exit_all_positions s).1.hedge_entry_times.h3 =
      (if s.hedge_states.h3 then none else s.hedge_entry_times.h3) := by
  cases h1 : s.hedge_states.h1 <;> cases h2 : s.hedge_states.h2 <;> cases h3 : s.hedge_states.h3 <;>
    simp [exit_all_positions, close_hedge, TierMap.get, TierMap.set, TierMap.eq_mk_iff,
      h1, h2, h3]

/-- The code's per-tier funding contribution coincides with the spec's
formula. -/
theorem tierFunding_eq_spec (s : State) (now : DateTime) (t : Tier) :
    tierFunding s now t = fundingContributionSpec s now t := by
  unfold tierFunding fundingContributionSpec
  cases hs : s.hedge_states.get t <;> cases ht : s.hedge_entry_times.get t <;> simp [hs, ht]

/-- C9: the funding cost is the sum over the three tiers of
position_value × funding_rate × (hours_elapsed / hours_per_funding_period)
for active tiers with an entry time; an inactive tier, or a tier with
no entry time, contributes exactly 0 regardless of the clock reading,
and an active tier with zero elapsed time contributes exactly 0. -/
theorem funding_cost_spec (s : State) (now : DateTime) (t : Tier) :
    calculate_funding_cost s now =
      fundingContributionSpec s now .h1 + fundingContributionSpec s now .h2 +
        fundingContributionSpec s now .h3 ∧
    (s.hedge_states.get t = false → tierFunding s now t = 0) ∧
    (s.hedge_entry_times.get t = none → tierFunding s now t = 0) ∧
    (s.hedge_entry_times.get t = some now → tierFunding s now t = 0) := by
  refine ⟨?_, ?_, ?_, ?_⟩
  · simp [calculate_funding_cost, tierFunding_eq_spec]
  · intro h; simp [tierFunding, h]
  · intro h; cases hs : s.hedge_states.get t <;> simp [tierFunding, h, hs]
  · intro h; simp [tierFunding, h]

/-- C9 witness: concretely, at the funded state (tier 1 active since
clock reading 0), the sum identity holds at 8 hours, the inactive
tier 2 contributes 0, and the active tier 1 contributes 0 at zero
elapsed time. -/
theorem funding_cost_spec_witness :
    calculate_funding_cost fundedState 28800000000 =
      fundingContributionSpec fundedState 28800000000 .h1 +
        fundingContributionSpec fundedState 28800000000 .h2 +
        fundingContributionSpec fundedState 28800000000 .h3 ∧
    tierFunding fundedState 28800000000 .h2 = 0 ∧
    tierFunding fundedState 0 .h1 = 0 := by
  refine ⟨(funding_cost_spec fundedState 28800000000 .h2).1, ?_, ?_⟩
  · exact (funding_cost_spec fundedState 28800000000 .h2).2.1
      (by simp [fundedState, open_hedge, calculate_hedge_sizes, tierOneTouchState,
        initialize_strategy, State.update_price, TierMap.get, TierMap.set])
  · exact (funding_cost_spec fundedState 0 .h1).2.2.2
      (by simp [fundedState, open_hedge, calculate_hedge_sizes, tierOneTouchState,
        initialize_strategy, State.update_price, TierMap.get, TierMap.set])

/-- C4 (amended): the snapshot round trip reproduces every State field
except `hedges` and `prev_hedges`, which come back as the empty
dictionaries of a fresh State; timestamps survive through their string
serialization and the status through its string tag. -/
theorem snapshot_roundtrip (s : State) :
    State.from_dict (State.to_dict s) = some { s with hedges := [], prev_hedges := [] } := by
  simp only [State.from_dict, State.to_dict, parseEntryTime_isoformat,
    strategyStateOfValue_value, Option.bind_eq_bind, Option.some_bind]
  rfl

end Weaver
